import Mathlib

/-!
Verification of the scroll visibility controller in
`src/js/mobile-scroll-ui.js` (the variant with the auto-hide timer).

The controller manages two DOM elements — a table-of-contents container
(`#toc-container`, possibly holding a `details.toc-details` disclosure)
and a "back to top" button (`#back-to-top`) — toggling the CSS class
`scroll-direction-hidden` on them in response to scroll, resize,
touchstart, click, timer and disclosure-toggle events.

The embedding is a direct translation:
* `Dom` records which of the three elements exist on the page (fixed at
  `DOMContentLoaded` wiring time);
* `Env` holds the values the handlers read from the browser at each
  invocation (`window.matchMedia('(max-width: 899px)').matches`,
  `window.scrollY`, `window.innerHeight`, `tocDetails.open`);
* `St` holds the module-local mutable state (`lastScrollY`, `rafPending`,
  `enableHideAfterPixels`, `autoHideTimeoutId`) together with the
  presence of the `scroll-direction-hidden` class on each element and the
  browser's queue of pending timeouts created by this module (each entry
  is an id paired with its delay in milliseconds; `window.setTimeout`
  returns a fresh id, `window.clearTimeout id` removes the entry with
  that id).

`window.scrollY` is modelled as a natural number of pixels; the scroll
delta is computed in `Int` exactly as `currentScrollY - lastScrollY`.
-/

namespace MobileScrollUI

/-- Which managed elements exist on the page.  In the source,
`tocDetails` is looked up via `tocContainer.querySelector`, so it can
only be present when `tocContainer` is. -/
structure Dom where
  tocContainer : Bool
  backToTopButton : Bool
  tocDetails : Bool
  deriving DecidableEq, Repr

/-- Browser-provided values read by the handlers at invocation time. -/
structure Env where
  isMobile : Bool
  scrollY : Nat
  innerHeight : Nat
  tocOpen : Bool
  deriving DecidableEq, Repr

/-- Module-local mutable state plus the observable effects (CSS classes,
pending timeout queue). -/
structure St where
  lastScrollY : Nat
  rafPending : Bool
  enableHideAfterPixels : Nat
  autoHideTimeoutId : Option Nat
  tocHidden : Bool
  backHidden : Bool
  pendingTimers : List (Nat × Nat)
  nextTimerId : Nat
  deriving DecidableEq, Repr

/-- Source: `const minDelta = 8;`. -/
def minDelta : Nat := 8

/-- Source: `const autoHideDelayMs = 5000;`. -/
def autoHideDelayMs : Nat := 5000

/-- Source: `Math.max(200, Math.floor(window.innerHeight * 0.6))` for a
whole number of pixels: `floor(h * 0.6) = floor(3h/5) = 6h/10` in `Nat`. -/
def thresholdOf (innerHeight : Nat) : Nat :=
  max 200 (innerHeight * 6 / 10)

/-- Function `clearAutoHideTimer`: if a timeout id is tracked,
`clearTimeout` it (remove it from the browser queue) and reset the
variable to null. -/
def clearAutoHideTimer (s : St) : St :=
  match s.autoHideTimeoutId with
  | some id =>
      { s with pendingTimers := s.pendingTimers.filter (fun t => t.1 != id),
               autoHideTimeoutId := none }
  | none => s

/-- Source: `autoHideTimeoutId = window.setTimeout(callback, delay)`:
enqueue a fresh timer id with its delay and track it. -/
def setTimeoutAutoHide (delay : Nat) (s : St) : St :=
  { s with pendingTimers := (s.nextTimerId, delay) :: s.pendingTimers,
           autoHideTimeoutId := some s.nextTimerId,
           nextTimerId := s.nextTimerId + 1 }

/-- Function `scheduleAutoHide`: clear any outstanding timer, then schedule a new
5000 ms timeout unless the viewport is not mobile, the page is still
above `enableHideAfterPixels`, or the TOC disclosure is open. -/
def scheduleAutoHide (d : Dom) (e : Env) (s : St) : St :=
  let s := clearAutoHideTimer s
  if !e.isMobile then s
  else if e.scrollY < s.enableHideAfterPixels then s
  else if d.tocDetails && e.tocOpen then s
  else setTimeoutAutoHide autoHideDelayMs s

/-- Function `setScrollDirectionHidden(isHidden)`: toggle the
`scroll-direction-hidden` class on each existing element (the TOC is
never hidden while its disclosure is open), then reschedule or clear the
auto-hide timer. -/
def setScrollDirectionHidden (d : Dom) (e : Env) (isHidden : Bool) (s : St) : St :=
  let s :=
    if d.tocContainer then
      { s with tocHidden := isHidden && !(d.tocDetails && e.tocOpen) }
    else s
  let s :=
    if d.backToTopButton then
      { s with backHidden := isHidden }
    else s
  if !isHidden then scheduleAutoHide d e s else clearAutoHideTimer s

/-- The body of the timeout callback passed to `window.setTimeout` in
`scheduleAutoHide`: re-check the three conditions at fire time and hide
both panels only if they still hold. -/
def autoHideCallback (d : Dom) (e : Env) (s : St) : St :=
  if !e.isMobile then s
  else if e.scrollY < s.enableHideAfterPixels then s
  else if d.tocDetails && e.tocOpen then s
  else setScrollDirectionHidden d e true s

/-- The browser firing pending timeout `id`: the timer leaves the queue
and its callback body runs. -/
def fireAutoHide (d : Dom) (e : Env) (id : Nat) (s : St) : St :=
  autoHideCallback d e
    { s with pendingTimers := s.pendingTimers.filter (fun t => t.1 != id) }

/-- Function `update()`: the per-animation-frame evaluation. -/
def update (d : Dom) (e : Env) (s : St) : St :=
  let s := { s with rafPending := false }
  if !e.isMobile then
    let s := setScrollDirectionHidden d e false s
    { s with lastScrollY := e.scrollY }
  else
    let currentScrollY := e.scrollY
    let delta : Int := (currentScrollY : Int) - (s.lastScrollY : Int)
    if delta.natAbs < minDelta then s
    else
      let isScrollingDown := decide (0 < delta)
      let s :=
        if currentScrollY < s.enableHideAfterPixels then
          setScrollDirectionHidden d e false s
        else
          setScrollDirectionHidden d e isScrollingDown s
      { s with lastScrollY := currentScrollY }

/-- Function `onScroll()`: request at most one animation frame per burst. -/
def onScroll (s : St) : St :=
  if s.rafPending then s else { s with rafPending := true }

/-- The `resize` listener: recompute the threshold, reset the baseline,
and run `update`. -/
def onResize (d : Dom) (e : Env) (s : St) : St :=
  update d e
    { s with enableHideAfterPixels := thresholdOf e.innerHeight,
             lastScrollY := e.scrollY }

/-- The `toggle` listener on the disclosure: when opened, force both
panels visible, reset the baseline and clear the timer; when closed,
reschedule the timer. -/
def onTocToggle (d : Dom) (e : Env) (s : St) : St :=
  if e.tocOpen then
    let s := setScrollDirectionHidden d e false s
    let s := { s with lastScrollY := e.scrollY }
    clearAutoHideTimer s
  else
    scheduleAutoHide d e s

/-- State at the top of the `DOMContentLoaded` handler, for a page whose
HTML does not pre-apply the `scroll-direction-hidden` class. -/
def initSt (e : Env) : St :=
  { lastScrollY := e.scrollY
    rafPending := false
    enableHideAfterPixels := thresholdOf e.innerHeight
    autoHideTimeoutId := none
    tocHidden := false
    backHidden := false
    pendingTimers := []
    nextTimerId := 0 }

/-- The event listeners the `DOMContentLoaded` handler can register. -/
inductive Listener where
  | scroll
  | touchstart
  | click
  | resize
  | tocToggle
  deriving DecidableEq, Repr

/-- The listeners registered when wiring proceeds past the existence
check (the `toggle` listener only when the disclosure element exists). -/
def registeredListeners (d : Dom) : List Listener :=
  [Listener.scroll, Listener.touchstart, Listener.click, Listener.resize]
    ++ (if d.tocDetails then [Listener.tocToggle] else [])

/-- The `DOMContentLoaded` handler: if neither managed element exists it
returns before registering anything; otherwise it registers the
listeners and runs `update()` once. -/
def wire (d : Dom) (e : Env) : Option (List Listener × St) :=
  if !d.tocContainer && !d.backToTopButton then none
  else some (registeredListeners d, update d e (initSt e))

/-- A world pairs the browser-provided values with the module state. -/
structure World where
  env : Env
  st : St

/-- Between two handler invocations the scroll position, viewport size
and media-query result may change freely, but the disclosure's `open`
attribute only changes together with a `toggle` event. -/
def envDrift (e e' : Env) : Prop := e'.tocOpen = e.tocOpen

/-- One event-loop step of the wired page: a handler (or the browser
firing a pending timeout) runs against possibly drifted browser state. -/
inductive Step (d : Dom) : World → World → Prop where
  | scrollEvent (w : World) (e' : Env) (h : envDrift w.env e') :
      Step d w ⟨e', onScroll w.st⟩
  | frame (w : World) (e' : Env) (h : envDrift w.env e') :
      Step d w ⟨e', update d e' w.st⟩
  | resizeEvent (w : World) (e' : Env) (h : envDrift w.env e') :
      Step d w ⟨e', onResize d e' w.st⟩
  | userTap (w : World) (e' : Env) (h : envDrift w.env e') :
      Step d w ⟨e', scheduleAutoHide d e' w.st⟩
  | timerFire (w : World) (e' : Env) (id : Nat) (h : envDrift w.env e')
      (hpend : ∃ delay, (id, delay) ∈ w.st.pendingTimers) :
      Step d w ⟨e', fireAutoHide d e' id w.st⟩
  | tocToggle (w : World) (e' : Env) (hdet : d.tocDetails = true) :
      Step d w ⟨e', onTocToggle d e' w.st⟩

/-- Worlds the wired page can reach from `DOMContentLoaded`. -/
inductive Reachable (d : Dom) : World → Prop where
  | init (e : Env) (ls : List Listener) (s : St) (h : wire d e = some (ls, s)) :
      Reachable d ⟨e, s⟩
  | step (w w' : World) (hr : Reachable d w) (hs : Step d w w') : Reachable d w'

/-- In the source, `tocDetails` is obtained from
`tocContainer.querySelector`, so it exists only when the container does. -/
def DomWF (d : Dom) : Prop := d.tocDetails = true → d.tocContainer = true

/-- Shape of the timer bookkeeping maintained by the controller: either
no timeout of this module is pending, or exactly the tracked one is. -/
def TimerOK (s : St) : Prop :=
  s.pendingTimers = [] ∨
    ∃ id, s.autoHideTimeoutId = some id ∧ s.pendingTimers = [(id, autoHideDelayMs)]

@[simp] theorem clearAutoHideTimer_tocHidden (s : St) :
    (clearAutoHideTimer s).tocHidden = s.tocHidden := by
  unfold clearAutoHideTimer; split <;> rfl

@[simp] theorem clearAutoHideTimer_backHidden (s : St) :
    (clearAutoHideTimer s).backHidden = s.backHidden := by
  unfold clearAutoHideTimer; split <;> rfl

@[simp] theorem clearAutoHideTimer_lastScrollY (s : St) :
    (clearAutoHideTimer s).lastScrollY = s.lastScrollY := by
  unfold clearAutoHideTimer; split <;> rfl

@[simp] theorem clearAutoHideTimer_rafPending (s : St) :
    (clearAutoHideTimer s).rafPending = s.rafPending := by
  unfold clearAutoHideTimer; split <;> rfl

@[simp] theorem clearAutoHideTimer_enableHideAfterPixels (s : St) :
    (clearAutoHideTimer s).enableHideAfterPixels = s.enableHideAfterPixels := by
  unfold clearAutoHideTimer; split <;> rfl

@[simp] theorem clearAutoHideTimer_nextTimerId (s : St) :
    (clearAutoHideTimer s).nextTimerId = s.nextTimerId := by
  unfold clearAutoHideTimer; split <;> rfl

@[simp] theorem clearAutoHideTimer_autoHideTimeoutId (s : St) :
    (clearAutoHideTimer s).autoHideTimeoutId = none := by
  unfold clearAutoHideTimer
  split
  · rfl
  · next heq => exact heq

@[simp] theorem scheduleAutoHide_tocHidden (d : Dom) (e : Env) (s : St) :
    (scheduleAutoHide d e s).tocHidden = s.tocHidden := by
  unfold scheduleAutoHide setTimeoutAutoHide
  dsimp only
  split_ifs <;> simp

@[simp] theorem scheduleAutoHide_backHidden (d : Dom) (e : Env) (s : St) :
    (scheduleAutoHide d e s).backHidden = s.backHidden := by
  unfold scheduleAutoHide setTimeoutAutoHide
  dsimp only
  split_ifs <;> simp

@[simp] theorem scheduleAutoHide_lastScrollY (d : Dom) (e : Env) (s : St) :
    (scheduleAutoHide d e s).lastScrollY = s.lastScrollY := by
  unfold scheduleAutoHide setTimeoutAutoHide
  dsimp only
  split_ifs <;> simp

@[simp] theorem scheduleAutoHide_rafPending (d : Dom) (e : Env) (s : St) :
    (scheduleAutoHide d e s).rafPending = s.rafPending := by
  unfold scheduleAutoHide setTimeoutAutoHide
  dsimp only
  split_ifs <;> simp

@[simp] theorem scheduleAutoHide_enableHideAfterPixels (d : Dom) (e : Env) (s : St) :
    (scheduleAutoHide d e s).enableHideAfterPixels = s.enableHideAfterPixels := by
  unfold scheduleAutoHide setTimeoutAutoHide
  dsimp only
  split_ifs <;> simp

@[simp] theorem setScrollDirectionHidden_tocHidden (d : Dom) (e : Env) (b : Bool) (s : St) :
    (setScrollDirectionHidden d e b s).tocHidden
      = if d.tocContainer then b && !(d.tocDetails && e.tocOpen) else s.tocHidden := by
  unfold setScrollDirectionHidden
  dsimp only
  split_ifs <;> simp

@[simp] theorem setScrollDirectionHidden_backHidden (d : Dom) (e : Env) (b : Bool) (s : St) :
    (setScrollDirectionHidden d e b s).backHidden
      = if d.backToTopButton then b else s.backHidden := by
  unfold setScrollDirectionHidden
  dsimp only
  split_ifs <;> simp

@[simp] theorem setScrollDirectionHidden_lastScrollY (d : Dom) (e : Env) (b : Bool) (s : St) :
    (setScrollDirectionHidden d e b s).lastScrollY = s.lastScrollY := by
  unfold setScrollDirectionHidden
  dsimp only
  split_ifs <;> simp

@[simp] theorem setScrollDirectionHidden_enableHideAfterPixels
    (d : Dom) (e : Env) (b : Bool) (s : St) :
    (setScrollDirectionHidden d e b s).enableHideAfterPixels = s.enableHideAfterPixels := by
  unfold setScrollDirectionHidden
  dsimp only
  split_ifs <;> simp

@[simp] theorem onScroll_tocHidden (s : St) : (onScroll s).tocHidden = s.tocHidden := by
  unfold onScroll; split <;> rfl

@[simp] theorem onScroll_backHidden (s : St) : (onScroll s).backHidden = s.backHidden := by
  unfold onScroll; split <;> rfl

/-- The three conditions guarding both the scheduling and the firing of
the auto-hide timeout: mobile viewport, scrolled at least to the
threshold, and the disclosure (when present) not expanded. -/
def autoHideCond (d : Dom) (e : Env) (s : St) : Bool :=
  e.isMobile && !decide (e.scrollY < s.enableHideAfterPixels) && !(d.tocDetails && e.tocOpen)

theorem scheduleAutoHide_eq (d : Dom) (e : Env) (s : St) :
    scheduleAutoHide d e s =
      if autoHideCond d e s then setTimeoutAutoHide autoHideDelayMs (clearAutoHideTimer s)
      else clearAutoHideTimer s := by
  unfold scheduleAutoHide autoHideCond
  dsimp only
  cases hm : e.isMobile <;>
    cases ho : (d.tocDetails && e.tocOpen) <;>
      by_cases hy : e.scrollY < s.enableHideAfterPixels <;>
        simp [hm, ho, hy]

theorem autoHideCallback_eq (d : Dom) (e : Env) (s : St) :
    autoHideCallback d e s =
      if autoHideCond d e s then setScrollDirectionHidden d e true s else s := by
  unfold autoHideCallback autoHideCond
  cases hm : e.isMobile <;>
    cases ho : (d.tocDetails && e.tocOpen) <;>
      by_cases hy : e.scrollY < s.enableHideAfterPixels <;>
        simp [hm, ho, hy]

theorem clearAutoHideTimer_pendingTimers_nil (s : St) (h : TimerOK s) :
    (clearAutoHideTimer s).pendingTimers = [] := by
  rcases h with hnil | ⟨id, hid, hp⟩
  · unfold clearAutoHideTimer
    split <;> simp [hnil]
  · simp [clearAutoHideTimer, hid, hp]

theorem timerOK_clearAutoHideTimer (s : St) (h : TimerOK s) :
    TimerOK (clearAutoHideTimer s) :=
  Or.inl (clearAutoHideTimer_pendingTimers_nil s h)

theorem timerOK_setTimeoutAutoHide (s : St) (h : s.pendingTimers = []) :
    TimerOK (setTimeoutAutoHide autoHideDelayMs s) :=
  Or.inr ⟨s.nextTimerId, rfl, by simp [setTimeoutAutoHide, h]⟩

theorem timerOK_scheduleAutoHide (d : Dom) (e : Env) (s : St) (h : TimerOK s) :
    TimerOK (scheduleAutoHide d e s) := by
  rw [scheduleAutoHide_eq]
  split
  · exact timerOK_setTimeoutAutoHide (clearAutoHideTimer s)
      (clearAutoHideTimer_pendingTimers_nil s h)
  · exact timerOK_clearAutoHideTimer s h

theorem timerOK_setScrollDirectionHidden (d : Dom) (e : Env) (b : Bool) (s : St)
    (h : TimerOK s) : TimerOK (setScrollDirectionHidden d e b s) := by
  unfold setScrollDirectionHidden
  dsimp only
  split_ifs
  all_goals
    first
      | exact timerOK_scheduleAutoHide d e
          { { s with tocHidden := b && !(d.tocDetails && e.tocOpen) } with backHidden := b } h
      | exact timerOK_scheduleAutoHide d e
          { s with tocHidden := b && !(d.tocDetails && e.tocOpen) } h
      | exact timerOK_scheduleAutoHide d e { s with backHidden := b } h
      | exact timerOK_scheduleAutoHide d e s h
      | exact timerOK_clearAutoHideTimer
          { { s with tocHidden := b && !(d.tocDetails && e.tocOpen) } with backHidden := b } h
      | exact timerOK_clearAutoHideTimer
          { s with tocHidden := b && !(d.tocDetails && e.tocOpen) } h
      | exact timerOK_clearAutoHideTimer { s with backHidden := b } h
      | exact timerOK_clearAutoHideTimer s h

theorem timerOK_update (d : Dom) (e : Env) (s : St) (h : TimerOK s) :
    TimerOK (update d e s) := by
  unfold update
  dsimp only
  split_ifs
  all_goals
    first
      | exact timerOK_setScrollDirectionHidden d e false { s with rafPending := false } h
      | exact timerOK_setScrollDirectionHidden d e
          (decide ((0 : Int) < (e.scrollY : Int) - (s.lastScrollY : Int)))
          { s with rafPending := false } h
      | exact h

theorem timerOK_onScroll (s : St) (h : TimerOK s) : TimerOK (onScroll s) := by
  unfold onScroll
  split
  · exact h
  · exact h

theorem timerOK_onResize (d : Dom) (e : Env) (s : St) (h : TimerOK s) :
    TimerOK (onResize d e s) :=
  timerOK_update d e
    { s with enableHideAfterPixels := thresholdOf e.innerHeight, lastScrollY := e.scrollY } h

theorem timerOK_onTocToggle (d : Dom) (e : Env) (s : St) (h : TimerOK s) :
    TimerOK (onTocToggle d e s) := by
  unfold onTocToggle
  dsimp only
  split
  · exact timerOK_clearAutoHideTimer
      { setScrollDirectionHidden d e false s with lastScrollY := e.scrollY }
      (timerOK_setScrollDirectionHidden d e false s h)
  · exact timerOK_scheduleAutoHide d e s h

theorem timerOK_filterPend (s : St) (id : Nat) (h : TimerOK s) :
    TimerOK { s with pendingTimers := s.pendingTimers.filter (fun t => t.1 != id) } := by
  rcases h with hnil | ⟨id0, hid, hp⟩
  · exact Or.inl (by simp [hnil])
  · by_cases hb : id0 = id
    · exact Or.inl (by simp [hp, hb])
    · exact Or.inr ⟨id0, hid, by simp [hp, hb]⟩

theorem timerOK_fireAutoHide (d : Dom) (e : Env) (id : Nat) (s : St) (h : TimerOK s) :
    TimerOK (fireAutoHide d e id s) := by
  unfold fireAutoHide
  rw [autoHideCallback_eq]
  split
  · exact timerOK_setScrollDirectionHidden d e true
      { s with pendingTimers := s.pendingTimers.filter (fun t => t.1 != id) }
      (timerOK_filterPend s id h)
  · exact timerOK_filterPend s id h

theorem wire_st {d : Dom} {e : Env} {ls : List Listener} {s : St}
    (h : wire d e = some (ls, s)) : s = update d e (initSt e) := by
  unfold wire at h
  split at h
  · exact absurd h (by simp)
  · simp only [Option.some.injEq, Prod.mk.injEq] at h
    exact h.2.symm

theorem reachable_timerOK {d : Dom} {w : World} (h : Reachable d w) : TimerOK w.st := by
  induction h with
  | init e ls s hw =>
      have hs := wire_st hw
      subst hs
      exact timerOK_update d e (initSt e) (Or.inl rfl)
  | step w w' hr hs ih =>
      cases hs with
      | scrollEvent e' hdrift => exact timerOK_onScroll w.st ih
      | frame e' hdrift => exact timerOK_update d e' w.st ih
      | resizeEvent e' hdrift => exact timerOK_onResize d e' w.st ih
      | userTap e' hdrift => exact timerOK_scheduleAutoHide d e' w.st ih
      | timerFire e' id hdrift hpend => exact timerOK_fireAutoHide d e' id w.st ih
      | tocToggle e' hdet => exact timerOK_onTocToggle d e' w.st ih

theorem timerOK_length_le_one (s : St) (h : TimerOK s) : s.pendingTimers.length ≤ 1 := by
  rcases h with hnil | ⟨id, _, hp⟩
  · simp [hnil]
  · simp [hp]

/-- The table-of-contents exemption invariant: while the disclosure
reports itself expanded, the TOC container does not carry the
`scroll-direction-hidden` class. -/
def TocInv (d : Dom) (w : World) : Prop :=
  d.tocDetails = true → w.env.tocOpen = true → w.st.tocHidden = false

theorem setScrollDirectionHidden_tocHidden_of_open (d : Dom) (e : Env) (b : Bool) (s : St)
    (hcont : d.tocContainer = true) (hdo : (d.tocDetails && e.tocOpen) = true) :
    (setScrollDirectionHidden d e b s).tocHidden = false := by
  simp [hcont, hdo]

theorem update_tocHidden_of_open (d : Dom) (e : Env) (s : St)
    (hcont : d.tocContainer = true) (hdo : (d.tocDetails && e.tocOpen) = true) :
    (update d e s).tocHidden = false ∨ (update d e s).tocHidden = s.tocHidden := by
  unfold update
  dsimp only
  split_ifs <;> simp [hcont, hdo]

theorem autoHideCallback_of_open (d : Dom) (e : Env) (s : St)
    (hdo : (d.tocDetails && e.tocOpen) = true) : autoHideCallback d e s = s := by
  rw [autoHideCallback_eq]
  simp [autoHideCond, hdo]

theorem fireAutoHide_tocHidden_of_open (d : Dom) (e : Env) (id : Nat) (s : St)
    (hdo : (d.tocDetails && e.tocOpen) = true) :
    (fireAutoHide d e id s).tocHidden = s.tocHidden := by
  unfold fireAutoHide
  rw [autoHideCallback_of_open d e _ hdo]

theorem onTocToggle_tocHidden_of_open (d : Dom) (e : Env) (s : St)
    (hcont : d.tocContainer = true) (hopen : e.tocOpen = true) :
    (onTocToggle d e s).tocHidden = false := by
  unfold onTocToggle
  dsimp only
  rw [if_pos hopen]
  simp [hcont]

theorem update_initSt_tocHidden (d : Dom) (e : Env) :
    (update d e (initSt e)).tocHidden = false := by
  unfold update initSt
  dsimp only
  split_ifs <;> simp

theorem reachable_tocInv {d : Dom} {w : World} (hwf : DomWF d) (h : Reachable d w) :
    TocInv d w := by
  induction h with
  | init e ls s hw =>
      intro hdet hopen
      have hs := wire_st hw
      subst hs
      exact update_initSt_tocHidden d e
  | step w w' hr hs ih =>
      intro hdet hopen
      have hcont := hwf hdet
      cases hs with
      | scrollEvent e' hdrift =>
          have hdr : e'.tocOpen = w.env.tocOpen := hdrift
          dsimp only at hopen ⊢
          rw [onScroll_tocHidden]
          exact ih hdet (hdr ▸ hopen)
      | frame e' hdrift =>
          have hdr : e'.tocOpen = w.env.tocOpen := hdrift
          dsimp only at hopen ⊢
          have hdo : (d.tocDetails && e'.tocOpen) = true := by rw [hdet, hopen]; rfl
          rcases update_tocHidden_of_open d e' w.st hcont hdo with h0 | h0
          · exact h0
          · rw [h0]
            exact ih hdet (hdr ▸ hopen)
      | resizeEvent e' hdrift =>
          have hdr : e'.tocOpen = w.env.tocOpen := hdrift
          dsimp only at hopen ⊢
          have hdo : (d.tocDetails && e'.tocOpen) = true := by rw [hdet, hopen]; rfl
          unfold onResize
          rcases update_tocHidden_of_open d e'
              { w.st with enableHideAfterPixels := thresholdOf e'.innerHeight,
                          lastScrollY := e'.scrollY } hcont hdo with h0 | h0
          · exact h0
          · rw [h0]
            exact ih hdet (hdr ▸ hopen)
      | userTap e' hdrift =>
          have hdr : e'.tocOpen = w.env.tocOpen := hdrift
          dsimp only at hopen ⊢
          rw [scheduleAutoHide_tocHidden]
          exact ih hdet (hdr ▸ hopen)
      | timerFire e' id hdrift hpend =>
          have hdr : e'.tocOpen = w.env.tocOpen := hdrift
          dsimp only at hopen ⊢
          have hdo : (d.tocDetails && e'.tocOpen) = true := by rw [hdet, hopen]; rfl
          rw [fireAutoHide_tocHidden_of_open d e' id w.st hdo]
          exact ih hdet (hdr ▸ hopen)
      | tocToggle e' hdet2 =>
          dsimp only at hopen ⊢
          exact onTocToggle_tocHidden_of_open d e' w.st hcont hopen

theorem update_not_mobile_eq (d : Dom) (e : Env) (s : St) (hm : e.isMobile = false) :
    update d e s =
      { setScrollDirectionHidden d e false { s with rafPending := false } with
          lastScrollY := e.scrollY } := by
  unfold update
  dsimp only
  split_ifs
  all_goals first
    | rfl
    | omega
    | (simp_all; done)

theorem update_small_delta_eq (d : Dom) (e : Env) (s : St) (hm : e.isMobile = true)
    (hd : ((e.scrollY : Int) - (s.lastScrollY : Int)).natAbs < minDelta) :
    update d e s = { s with rafPending := false } := by
  unfold update
  dsimp only
  split_ifs
  all_goals first
    | rfl
    | omega
    | (simp_all; done)

theorem update_below_threshold_eq (d : Dom) (e : Env) (s : St) (hm : e.isMobile = true)
    (hd : minDelta ≤ ((e.scrollY : Int) - (s.lastScrollY : Int)).natAbs)
    (hy : e.scrollY < s.enableHideAfterPixels) :
    update d e s =
      { setScrollDirectionHidden d e false { s with rafPending := false } with
          lastScrollY := e.scrollY } := by
  unfold update
  dsimp only
  split_ifs
  all_goals first
    | rfl
    | omega
    | (simp_all; done)

theorem update_past_threshold_eq (d : Dom) (e : Env) (s : St) (hm : e.isMobile = true)
    (hd : minDelta ≤ ((e.scrollY : Int) - (s.lastScrollY : Int)).natAbs)
    (hy : s.enableHideAfterPixels ≤ e.scrollY) :
    update d e s =
      { setScrollDirectionHidden d e
          (decide ((0 : Int) < (e.scrollY : Int) - (s.lastScrollY : Int)))
          { s with rafPending := false } with
          lastScrollY := e.scrollY } := by
  unfold update
  dsimp only
  split_ifs
  all_goals first
    | rfl
    | omega
    | (simp_all; done)

theorem autoHideCond_open_false {d : Dom} {e : Env} {s : St}
    (h : autoHideCond d e s = true) : (d.tocDetails && e.tocOpen) = false := by
  unfold autoHideCond at h
  simp only [Bool.and_eq_true, Bool.not_eq_true'] at h
  exact h.2

theorem autoHideCond_congr (d : Dom) (e : Env) (s1 s2 : St)
    (h : s2.enableHideAfterPixels = s1.enableHideAfterPixels) :
    autoHideCond d e s2 = autoHideCond d e s1 := by
  unfold autoHideCond
  rw [h]

theorem setScrollDirectionHidden_true_autoHideTimeoutId (d : Dom) (e : Env) (s : St) :
    (setScrollDirectionHidden d e true s).autoHideTimeoutId = none := by
  unfold setScrollDirectionHidden
  dsimp only
  split_ifs
  all_goals first
    | (simp_all; done)
    | simp

theorem setScrollDirectionHidden_true_pendingTimers (d : Dom) (e : Env) (s : St)
    (h : TimerOK s) : (setScrollDirectionHidden d e true s).pendingTimers = [] := by
  unfold setScrollDirectionHidden
  dsimp only
  split_ifs
  all_goals first
    | exact clearAutoHideTimer_pendingTimers_nil
        { { s with tocHidden := true && !(d.tocDetails && e.tocOpen) } with backHidden := true } h
    | exact clearAutoHideTimer_pendingTimers_nil
        { s with tocHidden := true && !(d.tocDetails && e.tocOpen) } h
    | exact clearAutoHideTimer_pendingTimers_nil { s with backHidden := true } h
    | exact clearAutoHideTimer_pendingTimers_nil s h
    | simp_all

theorem scheduleAutoHide_tid_of_not_mobile (d : Dom) (e : Env) (s : St)
    (hm : e.isMobile = false) : (scheduleAutoHide d e s).autoHideTimeoutId = none := by
  rw [scheduleAutoHide_eq]
  simp [autoHideCond, hm]

theorem setScrollDirectionHidden_tid_of_not_mobile (d : Dom) (e : Env) (b : Bool) (s : St)
    (hm : e.isMobile = false) :
    (setScrollDirectionHidden d e b s).autoHideTimeoutId = none := by
  unfold setScrollDirectionHidden
  dsimp only
  split_ifs
  all_goals first
    | (simp [scheduleAutoHide_eq, autoHideCond, hm]; done)
    | simp

theorem fireAutoHide_classes_of_cond (d : Dom) (e : Env) (s : St) (id : Nat)
    (hcont : d.tocContainer = true) (hback : d.backToTopButton = true)
    (hcond : autoHideCond d e s = true) :
    (fireAutoHide d e id s).tocHidden = true ∧ (fireAutoHide d e id s).backHidden = true := by
  unfold fireAutoHide
  have hc2 : autoHideCond d e
      { s with pendingTimers := s.pendingTimers.filter (fun t => t.1 != id) } = true :=
    (autoHideCond_congr d e s
      { s with pendingTimers := s.pendingTimers.filter (fun t => t.1 != id) } rfl).trans hcond
  rw [autoHideCallback_eq, if_pos hc2]
  have hdo := autoHideCond_open_false hcond
  constructor
  · simp [hcont, hdo]
  · simp [hback]

/-- C1: in every reachable state of the controller, while the disclosure
widget's `open` attribute is true the TOC container never carries the
`scroll-direction-hidden` class; the exemption is enforced at the moment
`setScrollDirectionHidden` applies a decision (any decision applied while
open leaves the TOC unhidden), and the `toggle` handler forces the TOC
visible when the disclosure opens after a hide decision. -/
theorem claim1_toc_never_hidden_while_open :
    (∀ (d : Dom) (w : World), DomWF d → Reachable d w →
        d.tocDetails = true → w.env.tocOpen = true → w.st.tocHidden = false) ∧
    (∀ (d : Dom) (e : Env) (b : Bool) (s : St), d.tocContainer = true →
        d.tocDetails = true → e.tocOpen = true →
        (setScrollDirectionHidden d e b s).tocHidden = false) ∧
    (∀ (d : Dom) (e : Env) (s : St), d.tocContainer = true → e.tocOpen = true →
        (onTocToggle d e s).tocHidden = false) := by
  refine ⟨?_, ?_, ?_⟩
  · intro d w hwf hr hdet hopen
    exact reachable_tocInv hwf hr hdet hopen
  · intro d e b s hcont hdet hopen
    exact setScrollDirectionHidden_tocHidden_of_open d e b s hcont (by rw [hdet, hopen]; rfl)
  · intro d e s hcont hopen
    exact onTocToggle_tocHidden_of_open d e s hcont hopen

/-- Witness for C1 at a concrete page (all three elements present, mobile
viewport, disclosure open). -/
theorem claim1_witness :
    (update (⟨true, true, true⟩ : Dom) (⟨true, 0, 800, true⟩ : Env)
        (initSt (⟨true, 0, 800, true⟩ : Env))).tocHidden = false ∧
    (setScrollDirectionHidden (⟨true, true, true⟩ : Dom) (⟨true, 900, 500, true⟩ : Env) true
        (⟨900, false, 300, none, false, true, [], 0⟩ : St)).tocHidden = false ∧
    (onTocToggle (⟨true, true, true⟩ : Dom) (⟨true, 900, 500, true⟩ : Env)
        (⟨100, false, 300, none, true, true, [], 0⟩ : St)).tocHidden = false := by
  refine ⟨?_, ?_, ?_⟩
  · exact claim1_toc_never_hidden_while_open.1 ⟨true, true, true⟩
      ⟨⟨true, 0, 800, true⟩,
        update ⟨true, true, true⟩ ⟨true, 0, 800, true⟩ (initSt ⟨true, 0, 800, true⟩)⟩
      (fun _ => rfl)
      (Reachable.init ⟨true, 0, 800, true⟩ (registeredListeners ⟨true, true, true⟩)
        (update ⟨true, true, true⟩ ⟨true, 0, 800, true⟩ (initSt ⟨true, 0, 800, true⟩)) rfl)
      rfl rfl
  · exact claim1_toc_never_hidden_while_open.2.1 ⟨true, true, true⟩ ⟨true, 900, 500, true⟩ true
      ⟨900, false, 300, none, false, true, [], 0⟩ rfl rfl rfl
  · exact claim1_toc_never_hidden_while_open.2.2 ⟨true, true, true⟩ ⟨true, 900, 500, true⟩
      ⟨100, false, 300, none, true, true, [], 0⟩ rfl rfl

/-- C2: `scheduleAutoHide` arms a timeout exactly when the viewport is
mobile, the scroll position is at least the threshold, and the disclosure
(when present) is not expanded; the timeout delay is 5000 ms; when its
callback runs it hides both panels if and only if the same three
conditions still hold, and otherwise changes nothing. -/
theorem claim2_autoHide_schedule_and_fire (d : Dom) (e : Env) (s : St) :
    (autoHideCond d e s = true →
        (scheduleAutoHide d e s).autoHideTimeoutId = some s.nextTimerId ∧
        (scheduleAutoHide d e s).pendingTimers
          = (s.nextTimerId, autoHideDelayMs) :: (clearAutoHideTimer s).pendingTimers ∧
        autoHideDelayMs = 5000) ∧
    (autoHideCond d e s = false → scheduleAutoHide d e s = clearAutoHideTimer s) ∧
    (autoHideCond d e s = true → d.tocContainer = true → d.backToTopButton = true →
        (autoHideCallback d e s).tocHidden = true ∧
        (autoHideCallback d e s).backHidden = true) ∧
    (autoHideCond d e s = false → autoHideCallback d e s = s) := by
  refine ⟨?_, ?_, ?_, ?_⟩
  · intro h
    rw [scheduleAutoHide_eq, if_pos h]
    refine ⟨?_, ?_, rfl⟩
    · simp [setTimeoutAutoHide]
    · simp [setTimeoutAutoHide]
  · intro h
    rw [scheduleAutoHide_eq, if_neg (by simp [h])]
  · intro h hcont hback
    rw [autoHideCallback_eq, if_pos h]
    have hdo := autoHideCond_open_false h
    constructor
    · simp [hcont, hdo]
    · simp [hback]
  · intro h
    rw [autoHideCallback_eq, if_neg (by simp [h])]

/-- Witness for C2: a mobile viewport past the threshold with the
disclosure closed schedules and fires; a desktop viewport does neither. -/
theorem claim2_witness :
    ((scheduleAutoHide (⟨true, true, true⟩ : Dom) (⟨true, 900, 500, false⟩ : Env)
        (⟨300, false, 600, none, false, false, [], 0⟩ : St)).autoHideTimeoutId = some 0 ∧
      (scheduleAutoHide (⟨true, true, true⟩ : Dom) (⟨true, 900, 500, false⟩ : Env)
        (⟨300, false, 600, none, false, false, [], 0⟩ : St)).pendingTimers
          = [(0, autoHideDelayMs)] ∧
      autoHideDelayMs = 5000) ∧
    scheduleAutoHide (⟨true, true, true⟩ : Dom) (⟨false, 900, 500, false⟩ : Env)
        (⟨300, false, 600, none, false, false, [], 0⟩ : St)
      = clearAutoHideTimer (⟨300, false, 600, none, false, false, [], 0⟩ : St) ∧
    ((autoHideCallback (⟨true, true, true⟩ : Dom) (⟨true, 900, 500, false⟩ : Env)
        (⟨300, false, 600, none, false, false, [], 0⟩ : St)).tocHidden = true ∧
      (autoHideCallback (⟨true, true, true⟩ : Dom) (⟨true, 900, 500, false⟩ : Env)
        (⟨300, false, 600, none, false, false, [], 0⟩ : St)).backHidden = true) ∧
    autoHideCallback (⟨true, true, true⟩ : Dom) (⟨false, 900, 500, false⟩ : Env)
        (⟨300, false, 600, none, false, false, [], 0⟩ : St)
      = (⟨300, false, 600, none, false, false, [], 0⟩ : St) := by
  refine ⟨?_, ?_, ?_, ?_⟩
  · exact (claim2_autoHide_schedule_and_fire ⟨true, true, true⟩ ⟨true, 900, 500, false⟩
      ⟨300, false, 600, none, false, false, [], 0⟩).1 (by decide)
  · exact (claim2_autoHide_schedule_and_fire ⟨true, true, true⟩ ⟨false, 900, 500, false⟩
      ⟨300, false, 600, none, false, false, [], 0⟩).2.1 (by decide)
  · exact (claim2_autoHide_schedule_and_fire ⟨true, true, true⟩ ⟨true, 900, 500, false⟩
      ⟨300, false, 600, none, false, false, [], 0⟩).2.2.1 (by decide) rfl rfl
  · exact (claim2_autoHide_schedule_and_fire ⟨true, true, true⟩ ⟨false, 900, 500, false⟩
      ⟨300, false, 600, none, false, false, [], 0⟩).2.2.2 (by decide)

/-- C3: in every reachable state at most one auto-hide timeout is
pending, and applying the hidden state clears the tracked timeout and
leaves no timeout pending (without scheduling a new one). -/
theorem claim3_at_most_one_pending_timer :
    (∀ (d : Dom) (w : World), Reachable d w → w.st.pendingTimers.length ≤ 1) ∧
    (∀ (d : Dom) (e : Env) (s : St), TimerOK s →
        (setScrollDirectionHidden d e true s).autoHideTimeoutId = none ∧
        (setScrollDirectionHidden d e true s).pendingTimers = []) := by
  refine ⟨?_, ?_⟩
  · intro d w hr
    exact timerOK_length_le_one w.st (reachable_timerOK hr)
  · intro d e s hok
    exact ⟨setScrollDirectionHidden_true_autoHideTimeoutId d e s,
      setScrollDirectionHidden_true_pendingTimers d e s hok⟩

/-- Witness for C3 at a concrete reachable state and a concrete hide. -/
theorem claim3_witness :
    (update (⟨true, true, true⟩ : Dom) (⟨true, 0, 800, false⟩ : Env)
        (initSt (⟨true, 0, 800, false⟩ : Env))).pendingTimers.length ≤ 1 ∧
    (setScrollDirectionHidden (⟨true, true, true⟩ : Dom) (⟨true, 900, 500, false⟩ : Env) true
        (⟨100, false, 300, none, false, false, [], 0⟩ : St)).autoHideTimeoutId = none ∧
    (setScrollDirectionHidden (⟨true, true, true⟩ : Dom) (⟨true, 900, 500, false⟩ : Env) true
        (⟨100, false, 300, none, false, false, [], 0⟩ : St)).pendingTimers = [] := by
  refine ⟨?_, ?_, ?_⟩
  · exact claim3_at_most_one_pending_timer.1 ⟨true, true, true⟩
      ⟨⟨true, 0, 800, false⟩,
        update ⟨true, true, true⟩ ⟨true, 0, 800, false⟩ (initSt ⟨true, 0, 800, false⟩)⟩
      (Reachable.init ⟨true, 0, 800, false⟩ (registeredListeners ⟨true, true, true⟩)
        (update ⟨true, true, true⟩ ⟨true, 0, 800, false⟩ (initSt ⟨true, 0, 800, false⟩)) rfl)
  · exact (claim3_at_most_one_pending_timer.2 ⟨true, true, true⟩ ⟨true, 900, 500, false⟩
      ⟨100, false, 300, none, false, false, [], 0⟩ (Or.inl rfl)).1
  · exact (claim3_at_most_one_pending_timer.2 ⟨true, true, true⟩ ⟨true, 900, 500, false⟩
      ⟨100, false, 300, none, false, false, [], 0⟩ (Or.inl rfl)).2

/-- C4 as stated is false: when the scroll delta since the recorded
baseline is below `minDelta`, a mobile scroll evaluation returns before
looking at the threshold, so a position below the threshold does not
force the panels shown.  Concrete input: mobile viewport, scroll position
300; state with baseline 300, threshold 600 and both panels hidden
(reachable after a resize enlarged the threshold); the evaluation leaves
the back-to-top control hidden. -/
theorem claim4_counterexample :
    ¬ (∀ (d : Dom) (e : Env) (s : St), e.scrollY < s.enableHideAfterPixels →
        (update d e s).tocHidden = false ∧ (update d e s).backHidden = false) := by
  intro h
  have h2 := h ⟨true, true, false⟩ ⟨true, 300, 500, false⟩
    ⟨300, false, 600, none, true, true, [], 0⟩ (by decide)
  exact absurd h2.2 (by decide)

/-- C4 amended: for all scroll positions below the current threshold, a
scroll evaluation that observes a delta of at least `minDelta` (so a
visibility decision is actually made) removes the
`scroll-direction-hidden` class from both managed elements. -/
theorem claim4_below_threshold_forces_shown (d : Dom) (e : Env) (s : St)
    (hcont : d.tocContainer = true) (hback : d.backToTopButton = true)
    (hy : e.scrollY < s.enableHideAfterPixels)
    (hd : minDelta ≤ ((e.scrollY : Int) - (s.lastScrollY : Int)).natAbs) :
    (update d e s).tocHidden = false ∧ (update d e s).backHidden = false := by
  by_cases hm : e.isMobile = true
  · rw [update_below_threshold_eq d e s hm hd hy]
    constructor <;> simp [hcont, hback]
  · have hm2 : e.isMobile = false := by revert hm; cases e.isMobile <;> simp
    rw [update_not_mobile_eq d e s hm2]
    constructor <;> simp [hcont, hback]

/-- Witness for the amended C4: mobile viewport, scroll back up to 100
with baseline 300 and threshold 600 while both panels are hidden. -/
theorem claim4_witness :
    (update (⟨true, true, false⟩ : Dom) (⟨true, 100, 500, false⟩ : Env)
        (⟨300, false, 600, none, true, true, [], 0⟩ : St)).tocHidden = false ∧
    (update (⟨true, true, false⟩ : Dom) (⟨true, 100, 500, false⟩ : Env)
        (⟨300, false, 600, none, true, true, [], 0⟩ : St)).backHidden = false :=
  claim4_below_threshold_forces_shown ⟨true, true, false⟩ ⟨true, 100, 500, false⟩
    ⟨300, false, 600, none, true, true, [], 0⟩ rfl rfl (by decide) (by decide)

/-- C5 as stated is false: on a desktop viewport the evaluation takes the
early non-mobile branch, which records the current scroll position as the
new baseline even when the delta is below `minDelta`.  Concrete input:
desktop viewport, scroll position 103, baseline 100 (delta 3): the
evaluation updates the baseline to 103. -/
theorem claim5_counterexample :
    ¬ (∀ (d : Dom) (e : Env) (s : St),
        ((e.scrollY : Int) - (s.lastScrollY : Int)).natAbs < minDelta →
        (update d e s).tocHidden = s.tocHidden ∧
        (update d e s).backHidden = s.backHidden ∧
        (update d e s).lastScrollY = s.lastScrollY) := by
  intro h
  have h2 := h ⟨true, true, false⟩ ⟨false, 103, 500, false⟩
    ⟨100, false, 300, none, false, false, [], 0⟩ (by decide)
  exact absurd h2.2.2 (by decide)

/-- C5 amended: on a mobile viewport, a scroll evaluation whose delta is
below `minDelta` makes no decision: the state is unchanged except for the
cleared animation-frame flag (in particular no class changes and the
baseline is not updated). -/
theorem claim5_small_delta_no_decision (d : Dom) (e : Env) (s : St)
    (hm : e.isMobile = true)
    (hd : ((e.scrollY : Int) - (s.lastScrollY : Int)).natAbs < minDelta) :
    update d e s = { s with rafPending := false } :=
  update_small_delta_eq d e s hm hd

/-- Witness for the amended C5: mobile viewport, scroll 103 against
baseline 100. -/
theorem claim5_witness :
    update (⟨true, true, false⟩ : Dom) (⟨true, 103, 500, false⟩ : Env)
        (⟨100, false, 300, none, true, true, [], 0⟩ : St)
      = { (⟨100, false, 300, none, true, true, [], 0⟩ : St) with rafPending := false } :=
  claim5_small_delta_no_decision ⟨true, true, false⟩ ⟨true, 103, 500, false⟩
    ⟨100, false, 300, none, true, true, [], 0⟩ rfl (by decide)

/-- C6: while the viewport is not mobile, an evaluation removes the
hidden class from both existing managed elements, records the current
scroll position as the baseline, ends with no tracked timeout, and
`scheduleAutoHide` never arms a timeout (it only clears). -/
theorem claim6_desktop_always_shown (d : Dom) (e : Env) (s : St) (hm : e.isMobile = false) :
    (update d e s).tocHidden = (if d.tocContainer then false else s.tocHidden) ∧
    (update d e s).backHidden = (if d.backToTopButton then false else s.backHidden) ∧
    (update d e s).lastScrollY = e.scrollY ∧
    (update d e s).autoHideTimeoutId = none ∧
    scheduleAutoHide d e s = clearAutoHideTimer s := by
  refine ⟨?_, ?_, ?_, ?_, ?_⟩
  · rw [update_not_mobile_eq d e s hm]
    simp
  · rw [update_not_mobile_eq d e s hm]
    simp
  · rw [update_not_mobile_eq d e s hm]
  · rw [update_not_mobile_eq d e s hm]
    exact setScrollDirectionHidden_tid_of_not_mobile d e false { s with rafPending := false } hm
  · rw [scheduleAutoHide_eq, if_neg (by simp [autoHideCond, hm])]

/-- Witness for C6: desktop viewport at scroll 2000 with both panels
hidden and a stale tracked timeout. -/
theorem claim6_witness :
    (update (⟨true, true, false⟩ : Dom) (⟨false, 2000, 800, false⟩ : Env)
        (⟨100, false, 300, some 7, true, true, [(7, 5000)], 8⟩ : St)).tocHidden
      = (if (⟨true, true, false⟩ : Dom).tocContainer then false
          else (⟨100, false, 300, some 7, true, true, [(7, 5000)], 8⟩ : St).tocHidden) ∧
    (update (⟨true, true, false⟩ : Dom) (⟨false, 2000, 800, false⟩ : Env)
        (⟨100, false, 300, some 7, true, true, [(7, 5000)], 8⟩ : St)).backHidden
      = (if (⟨true, true, false⟩ : Dom).backToTopButton then false
          else (⟨100, false, 300, some 7, true, true, [(7, 5000)], 8⟩ : St).backHidden) ∧
    (update (⟨true, true, false⟩ : Dom) (⟨false, 2000, 800, false⟩ : Env)
        (⟨100, false, 300, some 7, true, true, [(7, 5000)], 8⟩ : St)).lastScrollY = 2000 ∧
    (update (⟨true, true, false⟩ : Dom) (⟨false, 2000, 800, false⟩ : Env)
        (⟨100, false, 300, some 7, true, true, [(7, 5000)], 8⟩ : St)).autoHideTimeoutId = none ∧
    scheduleAutoHide (⟨true, true, false⟩ : Dom) (⟨false, 2000, 800, false⟩ : Env)
        (⟨100, false, 300, some 7, true, true, [(7, 5000)], 8⟩ : St)
      = clearAutoHideTimer (⟨100, false, 300, some 7, true, true, [(7, 5000)], 8⟩ : St) :=
  claim6_desktop_always_shown ⟨true, true, false⟩ ⟨false, 2000, 800, false⟩
    ⟨100, false, 300, some 7, true, true, [(7, 5000)], 8⟩ rfl

/-- C7: the expanded-disclosure exemption is TOC-only.  On a mobile
viewport past the threshold with the disclosure open, a scroll-down
evaluation applies the hidden class to the back-to-top control while the
TOC container stays unhidden; and any application of a visibility value
`b` sets the back-to-top class to `b` while the open TOC stays unhidden. -/
theorem claim7_exemption_only_toc (d : Dom) (e : Env) (s : St)
    (hcont : d.tocContainer = true) (hback : d.backToTopButton = true)
    (hdet : d.tocDetails = true) (hopen : e.tocOpen = true) (hm : e.isMobile = true)
    (hy : s.enableHideAfterPixels ≤ e.scrollY)
    (hdown : (s.lastScrollY : Int) + 8 ≤ (e.scrollY : Int)) :
    ((update d e s).backHidden = true ∧ (update d e s).tocHidden = false) ∧
    (∀ b : Bool, (setScrollDirectionHidden d e b s).backHidden = b ∧
        (setScrollDirectionHidden d e b s).tocHidden = false) := by
  have hd : minDelta ≤ ((e.scrollY : Int) - (s.lastScrollY : Int)).natAbs := by
    unfold minDelta
    omega
  constructor
  · rw [update_past_threshold_eq d e s hm hd hy]
    constructor
    · simp [hback]
      omega
    · simp [hcont, hdet, hopen]
  · intro b
    constructor
    · simp [hback]
    · simp [hcont, hdet, hopen]

/-- Witness for C7: mobile viewport at 900 px, threshold 300, baseline
700, disclosure open. -/
theorem claim7_witness :
    (update (⟨true, true, true⟩ : Dom) (⟨true, 900, 500, true⟩ : Env)
        (⟨700, false, 300, none, false, false, [], 0⟩ : St)).backHidden = true ∧
    (update (⟨true, true, true⟩ : Dom) (⟨true, 900, 500, true⟩ : Env)
        (⟨700, false, 300, none, false, false, [], 0⟩ : St)).tocHidden = false :=
  (claim7_exemption_only_toc ⟨true, true, true⟩ ⟨true, 900, 500, true⟩
    ⟨700, false, 300, none, false, false, [], 0⟩ rfl rfl rfl rfl rfl (by decide) (by decide)).1

/-- C8: the evaluation routine is idempotent on the CSS classes: running
`update` a second time with the same browser state produces the same
class assignment on both managed elements as the first run. -/
theorem claim8_update_idempotent_classes (d : Dom) (e : Env) (s : St) :
    (update d e (update d e s)).tocHidden = (update d e s).tocHidden ∧
    (update d e (update d e s)).backHidden = (update d e s).backHidden := by
  by_cases hm : e.isMobile = true
  · by_cases hd : ((e.scrollY : Int) - (s.lastScrollY : Int)).natAbs < minDelta
    · rw [update_small_delta_eq d e s hm hd,
        update_small_delta_eq d e { s with rafPending := false } hm hd]
      exact ⟨rfl, rfl⟩
    · have hd2 : minDelta ≤ ((e.scrollY : Int) - (s.lastScrollY : Int)).natAbs :=
        Nat.not_lt.mp hd
      have hlast : (update d e s).lastScrollY = e.scrollY := by
        by_cases hy : e.scrollY < s.enableHideAfterPixels
        · rw [update_below_threshold_eq d e s hm hd2 hy]
        · rw [update_past_threshold_eq d e s hm hd2 (Nat.not_lt.mp hy)]
      rw [update_small_delta_eq d e (update d e s) hm
        (by rw [hlast]; simp [minDelta])]
      exact ⟨rfl, rfl⟩
  · have hm2 : e.isMobile = false := by revert hm; cases e.isMobile <;> simp
    rw [update_not_mobile_eq d e s hm2]
    rw [update_not_mobile_eq d e _ hm2]
    constructor
    · simp only [setScrollDirectionHidden_tocHidden, setScrollDirectionHidden_backHidden]
      split_ifs <;> rfl
    · simp only [setScrollDirectionHidden_tocHidden, setScrollDirectionHidden_backHidden]
      split_ifs <;> rfl

/-- C9: if neither managed element exists, the `DOMContentLoaded` handler
returns before registering any listener or touching any state; and when
only one element is missing, `setScrollDirectionHidden` leaves that
element's class alone while still managing the other. -/
theorem claim9_no_elements_no_work :
    (∀ (d : Dom) (e : Env), d.tocContainer = false → d.backToTopButton = false →
        wire d e = none) ∧
    (∀ (d : Dom) (e : Env) (b : Bool) (s : St), d.tocContainer = false →
        (setScrollDirectionHidden d e b s).tocHidden = s.tocHidden) ∧
    (∀ (d : Dom) (e : Env) (b : Bool) (s : St), d.backToTopButton = false →
        (setScrollDirectionHidden d e b s).backHidden = s.backHidden) := by
  refine ⟨?_, ?_, ?_⟩
  · intro d e h1 h2
    simp [wire, h1, h2]
  · intro d e b s h
    simp [h]
  · intro d e b s h
    simp [h]

/-- Witness for C9: a page with no managed elements wires to nothing; a
page missing one element keeps that element's class untouched. -/
theorem claim9_witness :
    wire (⟨false, false, false⟩ : Dom) (⟨true, 0, 500, false⟩ : Env) = none ∧
    (setScrollDirectionHidden (⟨false, true, false⟩ : Dom) (⟨true, 900, 500, false⟩ : Env) true
        (⟨100, false, 300, none, false, false, [], 0⟩ : St)).tocHidden = false ∧
    (setScrollDirectionHidden (⟨true, false, false⟩ : Dom) (⟨true, 900, 500, false⟩ : Env) true
        (⟨100, false, 300, none, false, false, [], 0⟩ : St)).backHidden = false := by
  refine ⟨?_, ?_, ?_⟩
  · exact claim9_no_elements_no_work.1 ⟨false, false, false⟩ ⟨true, 0, 500, false⟩ rfl rfl
  · exact claim9_no_elements_no_work.2.1 ⟨false, true, false⟩ ⟨true, 900, 500, false⟩ true
      ⟨100, false, 300, none, false, false, [], 0⟩ rfl
  · exact claim9_no_elements_no_work.2.2 ⟨true, false, false⟩ ⟨true, 900, 500, false⟩ true
      ⟨100, false, 300, none, false, false, [], 0⟩ rfl

/-- C10: a touchstart/click handler call (`scheduleAutoHide`) on a mobile
viewport past the threshold with the disclosure closed arms a fresh
5000 ms timeout regardless of the panels already being hidden, so a
pending timeout coexists with the hidden state; when that timeout fires
it re-applies hidden, changing neither class. -/
theorem claim10_tap_reschedules_even_when_hidden (d : Dom) (e : Env) (s : St)
    (hcont : d.tocContainer = true) (hback : d.backToTopButton = true)
    (hcond : autoHideCond d e s = true)
    (hidle : s.autoHideTimeoutId = none) (hnone : s.pendingTimers = [])
    (htoc : s.tocHidden = true) (hbk : s.backHidden = true) :
    (scheduleAutoHide d e s).autoHideTimeoutId = some s.nextTimerId ∧
    (scheduleAutoHide d e s).pendingTimers = [(s.nextTimerId, autoHideDelayMs)] ∧
    autoHideDelayMs = 5000 ∧
    (scheduleAutoHide d e s).tocHidden = true ∧
    (scheduleAutoHide d e s).backHidden = true ∧
    (fireAutoHide d e s.nextTimerId (scheduleAutoHide d e s)).tocHidden = true ∧
    (fireAutoHide d e s.nextTimerId (scheduleAutoHide d e s)).backHidden = true := by
  have hclear : clearAutoHideTimer s = s := by
    simp [clearAutoHideTimer, hidle]
  have hsched : scheduleAutoHide d e s = setTimeoutAutoHide autoHideDelayMs s := by
    rw [scheduleAutoHide_eq, if_pos hcond, hclear]
  have hfire := fireAutoHide_classes_of_cond d e (scheduleAutoHide d e s) s.nextTimerId
    hcont hback
    ((autoHideCond_congr d e s (scheduleAutoHide d e s)
      (scheduleAutoHide_enableHideAfterPixels d e s)).trans hcond)
  refine ⟨?_, ?_, rfl, ?_, ?_, hfire.1, hfire.2⟩
  · rw [hsched]
    rfl
  · rw [hsched]
    unfold setTimeoutAutoHide
    dsimp only
    rw [hnone]
  · rw [scheduleAutoHide_tocHidden, htoc]
  · rw [scheduleAutoHide_backHidden, hbk]

/-- Witness for C10: mobile viewport at 900 px, threshold 300, both
panels hidden, no pending timeout, next timer id 5. -/
theorem claim10_witness :
    (scheduleAutoHide (⟨true, true, true⟩ : Dom) (⟨true, 900, 500, false⟩ : Env)
        (⟨800, false, 300, none, true, true, [], 5⟩ : St)).autoHideTimeoutId = some 5 ∧
    (scheduleAutoHide (⟨true, true, true⟩ : Dom) (⟨true, 900, 500, false⟩ : Env)
        (⟨800, false, 300, none, true, true, [], 5⟩ : St)).pendingTimers
      = [(5, autoHideDelayMs)] ∧
    autoHideDelayMs = 5000 ∧
    (scheduleAutoHide (⟨true, true, true⟩ : Dom) (⟨true, 900, 500, false⟩ : Env)
        (⟨800, false, 300, none, true, true, [], 5⟩ : St)).tocHidden = true ∧
    (scheduleAutoHide (⟨true, true, true⟩ : Dom) (⟨true, 900, 500, false⟩ : Env)
        (⟨800, false, 300, none, true, true, [], 5⟩ : St)).backHidden = true ∧
    (fireAutoHide (⟨true, true, true⟩ : Dom) (⟨true, 900, 500, false⟩ : Env) 5
        (scheduleAutoHide (⟨true, true, true⟩ : Dom) (⟨true, 900, 500, false⟩ : Env)
          (⟨800, false, 300, none, true, true, [], 5⟩ : St))).tocHidden = true ∧
    (fireAutoHide (⟨true, true, true⟩ : Dom) (⟨true, 900, 500, false⟩ : Env) 5
        (scheduleAutoHide (⟨true, true, true⟩ : Dom) (⟨true, 900, 500, false⟩ : Env)
          (⟨800, false, 300, none, true, true, [], 5⟩ : St))).backHidden = true :=
  claim10_tap_reschedules_even_when_hidden ⟨true, true, true⟩ ⟨true, 900, 500, false⟩
    ⟨800, false, 300, none, true, true, [], 5⟩ rfl rfl (by decide) rfl rfl rfl rfl

end MobileScrollUI
